import Mathlib

/-!
Verification of the nagoya container-image build tool.

Shallow embedding of the relevant parts of the source:
- src/nagoya/moromi.py (spec mini-language parsers, build_images routing)
- src/nagoya/build/build.py (same parsers plus the inline extraction code)
- src/nagoya/dockerext/container.py (container lifecycle wrapper)

The container engine (docker) is modelled as an oracle supplying the result
of each remote call; the embedded methods return the list of observable
events (engine calls and callback firings) together with an outcome that
distinguishes a normal return from each kind of raised exception.
-/

namespace Nagoya

/-! ## Spec mini-language parsers -/

/-- Named-tuple VolImg from moromi.py line 60 / build.py line 61:
the parsed form of a volumes_from specification. -/
structure VolImg where
  image : String
  persist_image : Option String
deriving DecidableEq, Repr

/-- Result of parse_volume_spec: the parsed record, or the InvalidFormat
exception.  The Python formats the exception message from the option name,
the raw spec text and the owning image name (moromi.py line 66); the
embedding keeps the three components structurally. -/
inductive VolSpecResult where
  | ok (v : VolImg)
  | invalidFormat (opt_name spec image_name : String)
deriving DecidableEq, Repr

/-- parse_volume_spec from moromi.py lines 61-66 (equivalently build.py
lines 62-73).  The regex is
  caret (image: one or more non-space) space then space
  (discard end-of-line, or persist to (persist_image: one or more
   characters that are neither colon nor space) end-of-line).
Since the image part cannot contain a space, it is exactly the prefix of the
input before the first space, and the remainder must be literally
" then discard" or " then persist to " followed by a nonempty colon-free
space-free target.  Inputs are single stripped lines (line_split), so the
Python dollar-anchor nuance about trailing newlines does not arise. -/
def parse_volume_spec (spec opt_name image_name : String) : VolSpecResult :=
  let chars := spec.data
  let image := chars.takeWhile (fun c => c ≠ ' ')
  let rest := chars.drop image.length
  if image.isEmpty then
    VolSpecResult.invalidFormat opt_name spec image_name
  else if rest = " then discard".data then
    VolSpecResult.ok ⟨String.mk image, none⟩
  else if (" then persist to ".data).isPrefixOf rest then
    let target := rest.drop (" then persist to ".data).length
    if !target.isEmpty && target.all (fun c => c ≠ ':' && c ≠ ' ') then
      VolSpecResult.ok ⟨String.mk image, some (String.mk target)⟩
    else
      VolSpecResult.invalidFormat opt_name spec image_name
  else
    VolSpecResult.invalidFormat opt_name spec image_name

/-- Named-tuple ResCopyPaths / ResPaths from moromi.py line 129. -/
structure ResPaths where
  src_path : String
  dest_path : String
  dest_dir : String
deriving DecidableEq, Repr

/-- Outcome of parse_dir_spec.  typeError models the Python TypeError raised
by os.path.join when its first argument is None. -/
inductive DirSpecResult where
  | ok (paths : ResPaths)
  | invalidFormat (opt_name spec image_name : String)
  | typeError
deriving DecidableEq, Repr

/-- All decompositions of a list into prefix and suffix, ordered by
increasing prefix length. -/
def listSplits : List Char → List (List Char × List Char)
  | [] => [([], [])]
  | c :: cs => ([], c :: cs) :: (listSplits cs).map (fun p => (c :: p.1, p.2))

/-- One candidate match of the dir_spec_pattern at a given split point:
the prefix is the sourcepath (must be nonempty), the suffix must start with
the literal " in " or " at " and have a nonempty remainder.  The Bool is
true for the in-branch. -/
def dirSepCandidate (pre post : List Char) : Option (List Char × Bool × List Char) :=
  if pre.isEmpty then none
  else if ([' ', 'i', 'n', ' '].isPrefixOf post) && !(post.drop 4).isEmpty then
    some (pre, true, post.drop 4)
  else if ([' ', 'a', 't', ' '].isPrefixOf post) && !(post.drop 4).isEmpty then
    some (pre, false, post.drop 4)
  else none

/-- The dir_spec_pattern regex from moromi.py line 127 / build.py line 242:
  caret (sourcepath: one or more chars) space
  (in (inpath: one or more chars) or at (atpath: one or more chars))
  end-of-line.
The sourcepath group is greedy, so backtracking selects the split with the
longest possible sourcepath; the payload after the separator runs to the end
of the line.  Returns the groupdict (sourcepath, inpath, atpath); exactly one
of the two optional groups is set on a match, the other is None. -/
def dirSpecMatch (s : String) : Option (String × Option String × Option String) :=
  match ((listSplits s.data).filterMap (fun p => dirSepCandidate p.1 p.2)).getLast? with
  | none => none
  | some (pre, inBranch, rest) =>
      if inBranch then some (String.mk pre, some (String.mk rest), none)
      else some (String.mk pre, none, some (String.mk rest))

/-- The characters after the last slash of a path (empty when the path ends
in a slash). -/
def afterLastSlash (l : List Char) : List Char :=
  l.foldl (fun acc c => if c = '/' then [] else acc ++ [c]) []

/-- os.path.basename for the forward-slash paths used here: the part after
the last slash. -/
def osPathBasename (s : String) : String :=
  String.mk (afterLastSlash s.data)

/-- os.path.join for two components: an absolute second component replaces
the first, otherwise a single slash separates them unless the first is empty
or already ends in a slash. -/
def osPathJoin (a b : String) : String :=
  if b.data.head? = some '/' then b
  else if a.data = [] || a.data.getLast? = some '/' then String.mk (a.data ++ b.data)
  else String.mk (a.data ++ '/' :: b.data)

/-- parse_dir_spec from moromi.py lines 131-149.  After a regex match the
Python tests whether the key inpath is in the groupdict; re groupdict always
contains every named group (value None when the group did not participate),
so that test is always true and the in-branch is taken even for at-specs,
where gd of inpath is None and os.path.join(None, basename) raises TypeError.
(The copy in build.py lines 246-264 tests the bare undefined names inpath and
atpath instead and would raise NameError on every match.) -/
def parse_dir_spec (spec opt_name image_name : String) : DirSpecResult :=
  match dirSpecMatch spec with
  | none => DirSpecResult.invalidFormat opt_name spec image_name
  | some (src, inpath, _atpath) =>
      match inpath with
      | some d => DirSpecResult.ok ⟨src, osPathJoin d (osPathBasename src), d⟩
      | none => DirSpecResult.typeError

/-! ## Event callback records -/

/-- Valid event names, Callspec.valid_events in container.py line 107. -/
def valid_events : List String := ["init", "create", "start", "stop", "remove"]

/-- Valid event phases, Callspec.valid_event_parts in container.py line 108. -/
def valid_event_parts : List String := ["pre", "post"]

/-- An event callback record.  The handler function is abstracted by an
identifier so that callback firings are observable in traces. -/
structure Callspec where
  event_part : String
  event : String
  callback_id : Nat
deriving DecidableEq, Repr

/-- Callspec construction, container.py lines 110-118.  The two validity
checks build ValueError objects but never raise them (the raise keyword is
missing on lines 112 and 114), so construction has no failure path: it
always succeeds and stores the given phase and event unchanged, valid or
not. -/
def Callspec.init (event_part event : String) (callback_id : Nat) : Callspec :=
  ⟨event_part, event, callback_id⟩

/-! ## build_images routing -/

/-- container_system_option_names, moromi.py line 57 / build.py line 58. -/
def container_system_option_names : List String := ["volumes_from", "links", "commit"]

/-- Which of the two build paths build_images selects for one image. -/
inductive BuildPath where
  | containerSystem
  | standard
deriving DecidableEq, Repr

/-- Python set.isdisjoint: true when the two collections share no element. -/
def setIsDisjoint (a b : List String) : Bool :=
  a.all (fun x => !(b.contains x))

/-- The per-image routing decision of build_images, moromi.py lines 215-218
(equivalently build.py lines 315-318): the container-system path when the
image configuration keys are not disjoint from
container_system_option_names, the standard path otherwise. -/
def buildRoute (cfgKeys : List String) : BuildPath :=
  if !(setIsDisjoint container_system_option_names cfgKeys) then BuildPath.containerSystem
  else BuildPath.standard

/-! ## Container lifecycle (src/nagoya/dockerext/container.py) -/

/-- A container wrapper.  Only the fields that drive the control flow of the
claims are kept; the remaining constructor parameters (entrypoint, working
directory, capability lists, volumes, links) are payload forwarded to the
engine call and do not alter any branch in create, start, stop or wait. -/
structure Container where
  image : String
  name : String
  detach : Bool
  run_once : Bool
  callbacks : List Callspec
deriving DecidableEq, Repr

/-- Observable events of one lifecycle method invocation: remote engine
calls in order, interleaved with registered callback firings. -/
inductive Ev where
  | callbackFired (part event : String) (id : Nat)
  | engineCreate (name image : String)
  | engineStart (name : String)
  | engineKill (name : String) (signal : Nat)
  | engineWait (name : String) (timeout : Option Nat)
  | engineInspect (name : String)
  | engineRemove (name : String)
deriving DecidableEq, Repr

/-- Container._process_callbacks, container.py lines 210-213: fire every
registered callback whose phase and event match, in registration order. -/
def processCallbacks (c : Container) (part event : String) : List Ev :=
  (c.callbacks.filter (fun cs => cs.event_part == part && cs.event == event)).map
    (fun cs => Ev.callbackFired part event cs.callback_id)

/-- Result of one engine API call, as seen through the docker client:
either it succeeds or it raises an APIError with an HTTP status code. -/
inductive ApiRes where
  | ok
  | apiError (status : Nat)
deriving DecidableEq, Repr

/-- Outcome of create or stop: a normal return or a re-raised APIError. -/
inductive CallOutcome where
  | returned
  | raisedApi (status : Nat)
deriving DecidableEq, Repr

/-- Container.create, container.py lines 222-240.  The pre-create callbacks
run inside the try block before the engine call; the post-create callbacks
run only after a successful engine call.  An APIError with status 409 is
tolerated when exists_ok; any other APIError is re-raised. -/
def Container.create (c : Container) (engineRes : ApiRes) (exists_ok : Bool) :
    List Ev × CallOutcome :=
  let attempt := processCallbacks c "pre" "create" ++ [Ev.engineCreate c.name c.image]
  match engineRes with
  | ApiRes.ok => (attempt ++ processCallbacks c "post" "create", CallOutcome.returned)
  | ApiRes.apiError s =>
      if exists_ok && s == 409 then (attempt, CallOutcome.returned)
      else (attempt, CallOutcome.raisedApi s)

/-- Result of the blocking wait HTTP round trip: a requests timeout, an
APIError from raise_for_status, or a JSON body whose StatusCode field may be
absent. -/
inductive WaitRes where
  | timeout
  | apiError (status : Nat)
  | res (statusCode : Option Int)
deriving DecidableEq, Repr

/-- Inputs Container.wait consumes from the engine: the round-trip result
plus the values a failure report would capture via logs() and inspect(). -/
structure WaitOracle where
  result : WaitRes
  logs : String
  insp : String
deriving DecidableEq, Repr

/-- Outcome of Container.wait. -/
inductive WaitOutcome where
  | returned (code : Int)
  | raisedTimeout
  | raisedApi (status : Nat)
  | raisedExit (code : Int) (logs : String) (insp : String)
deriving DecidableEq, Repr

/-- Container.wait, container.py lines 311-320: posts the blocking wait with
the optional timeout; a missing StatusCode counts as -1; returns the status
when error_ok or the status is zero, otherwise raises ContainerExitError
carrying the status, the captured logs and the inspect snapshot
(container.py lines 28-34).  A requests timeout propagates as is. -/
def Container.wait (c : Container) (o : WaitOracle) (timeout : Option Nat) (error_ok : Bool) :
    List Ev × WaitOutcome :=
  ([Ev.engineWait c.name timeout],
   match o.result with
   | WaitRes.timeout => WaitOutcome.raisedTimeout
   | WaitRes.apiError s => WaitOutcome.raisedApi s
   | WaitRes.res sc =>
       let status := sc.getD (-1)
       if error_ok || status == 0 then WaitOutcome.returned status
       else WaitOutcome.raisedExit status o.logs o.insp)

/-- Inputs Container.start consumes: the inspect State StartedAt value (read
only when run_once) and the wait oracle (used only when not detached). -/
structure StartOracle where
  startedAt : String
  waitOracle : WaitOracle
deriving DecidableEq, Repr

/-- Outcome of Container.start. -/
inductive StartOutcome where
  | returned
  | raisedTimeout
  | raisedApi (status : Nat)
  | raisedExit (code : Int) (logs : String) (insp : String)
deriving DecidableEq, Repr

/-- The StartedAt value the engine reports for a container that has never
been started, container.py line 262. -/
def zeroStartSentinel : String := "0001-01-01T00:00:00Z"

/-- The inner start closure of Container.start, container.py lines 243-258:
pre-start callbacks, the engine start call, then, when not detached, a
blocking wait with no timeout and error_ok false; post-start callbacks fire
only after a successful wait (or immediately when detached). -/
def Container.doStart (c : Container) (o : StartOracle) : List Ev × StartOutcome :=
  let evs := processCallbacks c "pre" "start" ++ [Ev.engineStart c.name]
  if c.detach then
    (evs ++ processCallbacks c "post" "start", StartOutcome.returned)
  else
    let w := c.wait o.waitOracle none false
    match w.2 with
    | WaitOutcome.returned _ =>
        (evs ++ w.1 ++ processCallbacks c "post" "start", StartOutcome.returned)
    | WaitOutcome.raisedTimeout => (evs ++ w.1, StartOutcome.raisedTimeout)
    | WaitOutcome.raisedApi s => (evs ++ w.1, StartOutcome.raisedApi s)
    | WaitOutcome.raisedExit code l i => (evs ++ w.1, StartOutcome.raisedExit code l i)

/-- Container.start, container.py lines 242-267: when run_once, inspect the
remote state first and only proceed when StartedAt equals the zero sentinel;
otherwise always proceed. -/
def Container.start (c : Container) (o : StartOracle) : List Ev × StartOutcome :=
  if c.run_once then
    if o.startedAt == zeroStartSentinel then
      let r := c.doStart o
      (Ev.engineInspect c.name :: r.1, r.2)
    else
      ([Ev.engineInspect c.name], StartOutcome.returned)
  else
    c.doStart o

/-- Result of the inspect call at the top of Container.stop: the reported
process id (0 when the container is not running), or an APIError. -/
inductive InspectRes where
  | found (pid : Nat)
  | apiError (status : Nat)
deriving DecidableEq, Repr

/-- Inputs Container.stop consumes from the engine, in the order the calls
can occur: inspect, the signal-15 kill, the first wait, the signal-9 kill,
the second wait. -/
structure StopOracle where
  inspectRes : InspectRes
  kill15 : ApiRes
  wait1 : WaitRes
  kill9 : ApiRes
  wait2 : WaitRes
deriving DecidableEq, Repr

/-- Container.stop, container.py lines 269-296.  Inspect first; a pid of 0
is a no-op.  Otherwise: pre-stop callbacks, kill with signal 15, wait with
timeout 20 and error_ok true; on a requests timeout, kill with signal 9 and
a second wait with timeout 20; a second timeout is only logged and stop
returns normally.  Every APIError escapes to the single outer handler, where
status 404 is tolerated when not_exists_ok and anything else is re-raised.
The post-stop callbacks fire only after a wait that did not time out. -/
def Container.stop (c : Container) (o : StopOracle) (not_exists_ok : Bool) :
    List Ev × CallOutcome :=
  let tolerate : Nat → List Ev → List Ev × CallOutcome := fun s evs =>
    if not_exists_ok && s == 404 then (evs, CallOutcome.returned)
    else (evs, CallOutcome.raisedApi s)
  match o.inspectRes with
  | InspectRes.apiError s => tolerate s [Ev.engineInspect c.name]
  | InspectRes.found pid =>
    if pid == 0 then ([Ev.engineInspect c.name], CallOutcome.returned)
    else
      let k15 := Ev.engineInspect c.name :: processCallbacks c "pre" "stop"
                   ++ [Ev.engineKill c.name 15]
      match o.kill15 with
      | ApiRes.apiError s => tolerate s k15
      | ApiRes.ok =>
        let w1 := k15 ++ [Ev.engineWait c.name (some 20)]
        match o.wait1 with
        | WaitRes.res _ => (w1 ++ processCallbacks c "post" "stop", CallOutcome.returned)
        | WaitRes.apiError s => tolerate s w1
        | WaitRes.timeout =>
          let k9 := w1 ++ [Ev.engineKill c.name 9]
          match o.kill9 with
          | ApiRes.apiError s => tolerate s k9
          | ApiRes.ok =>
            let w2 := k9 ++ [Ev.engineWait c.name (some 20)]
            match o.wait2 with
            | WaitRes.res _ => (w2 ++ processCallbacks c "post" "stop", CallOutcome.returned)
            | WaitRes.apiError s => tolerate s w2
            | WaitRes.timeout => (w2, CallOutcome.returned)

/-! ## Container-system orchestrator

The extraction helper call shapes below are taken from the in-source
extraction code in build.py lines 204-234. -/

/-- Python v.lstrip with a slash argument, build.py line 210: busybox tar
rejects absolute member paths, so leading slashes are stripped. -/
def lstripSlash (s : String) : String :=
  String.mk (s.data.dropWhile (fun ch => ch = '/'))

/-- The enumerated volume paths handed to tar, build.py lines 208-210. -/
def extract_volume_paths (sourceVolumes : List String) : List String :=
  sourceVolumes.map lstripSlash

/-- The helper container command, build.py line 219. -/
def extract_command (imageTarPath : String) (volumePaths : List String) : List String :=
  ["tar", "-cf", imageTarPath] ++ volumePaths

/-- The volumes_from argument of the helper start call, build.py line 225:
the source container mounted read-only. -/
def extract_volumes_from (sourceName : String) : List String :=
  [sourceName ++ ":ro"]

/-- The helper container image, build.py line 221. -/
def extract_helper_image : String := "busybox:latest"

/-- Post-build fate of one container (spec section 3 Disposition). -/
inductive Disposition where
  | discard
  | commitTo (target : String)
  | persistTo (target : String)
deriving DecidableEq, Repr

/-- One container of a build run: its unique name, source image, declared
volume mount paths (as the inspect call reports them) and disposition. -/
structure CSContainer where
  name : String
  image : String
  volumes : List String
  disposition : Disposition
deriving DecidableEq, Repr

/-- A container system: the root container plus its auxiliaries. -/
structure CSystem where
  root : CSContainer
  auxs : List CSContainer
deriving DecidableEq, Repr

/-- All containers of the system, root first. -/
def CSystem.containers (sys : CSystem) : List CSContainer := sys.root :: sys.auxs

/-- Observable image-producing events of one orchestrator run. -/
inductive CSEvent where
  | created (name image : String)
  | committed (name target : String)
  | helperCreated (name image : String) (volumesFrom command : List String)
  | imageBuilt (base tag includeSrc includeDest : String)
deriving DecidableEq, Repr

/-- Overall outcome of one orchestrator run. -/
inductive CSOutcome where
  | ok
  | exitError (code : Int)
deriving DecidableEq, Repr

/-- Deterministic stand-in for the random helper container name (the source
draws a uuid, build.py line 216; only freshness matters). -/
def helperNameOf (sourceName : String) : String := sourceName ++ ".extract"

/-- Deterministic stand-in for the per-extraction archive path (the source
derives it from a fresh uuid directory, build.py lines 206-214). -/
def helperTarPath (sourceName : String) : String :=
  "/" ++ sourceName ++ ".extract/extract.tar"

/-- The persist-via-extraction step for one source container (spec section
4.4; call shapes from build.py lines 204-234): create the helper from the
minimal utility image with a read-only volumes-from reference to the source
and a tar command over the enumerated volume paths; a zero helper exit
yields one image build whose base is the source image and whose only added
layer is the archive applied at the filesystem root under the target tag; a
non-zero helper exit is fatal with that code.  Returns the events, the
helper containers created, and the fatal code when the helper failed. -/
def runPersist (c : CSContainer) (target : String) (helperExit : Int) :
    List CSEvent × List String × Option Int :=
  let hname := helperNameOf c.name
  let createdEv := CSEvent.helperCreated hname extract_helper_image
      (extract_volumes_from c.name)
      (extract_command (helperTarPath c.name) (extract_volume_paths c.volumes))
  if helperExit = 0 then
    ([createdEv, CSEvent.imageBuilt c.image target (helperTarPath c.name) "/"],
     [hname], none)
  else
    ([createdEv], [hname], some helperExit)

/-- Disposition handling over the containers of a run, in order (spec
section 4.3 step 3): discard does nothing, commit snapshots the container,
persist runs the extractor; a fatal extraction stops further disposition
handling.  hexit gives each source container its helper exit code. -/
def runDispositions : List CSContainer → (String → Int) → List CSEvent × List String × Option Int
  | [], _ => ([], [], none)
  | c :: rest, hexit =>
    let step : List CSEvent × List String × Option Int :=
      match c.disposition with
      | Disposition.discard => ([], [], none)
      | Disposition.commitTo target => ([CSEvent.committed c.name target], [], none)
      | Disposition.persistTo target => runPersist c target (hexit c.name)
    match step with
    | (evs, helpers, some e) => (evs, helpers, some e)
    | (evs, helpers, none) =>
        let r := runDispositions rest hexit
        (evs ++ r.1, helpers ++ r.2.1, r.2.2)

/-- Result of one orchestrator run: the events, the names of every container
removed by the guaranteed teardown, and the outcome. -/
structure CSResult where
  events : List CSEvent
  removed : List String
  outcome : CSOutcome
deriving DecidableEq, Repr

/-- Modelled from the spec: class BuildContainerSystem of modules
nagoya.buildcsys and nagoya.build.consys is entered by
moromi.build_container_system (moromi.py line 82) and
build.build_container_system (build.py line 96) but the module that defines
it is not part of this source tree.  Following spec sections 4.3 and 4.4:
create the root and auxiliary containers, block until the root exits; a
non-zero root exit is fatal with that code and skips all disposition
handling; a zero root exit applies each container disposition in order,
with persist running the extractor above; regardless of outcome, every
container the run created (helpers included) is removed before the result
reaches the caller. -/
def buildContainerSystemRun (sys : CSystem) (rootExit : Int) (hexit : String → Int) :
    CSResult :=
  let createEvs := sys.containers.map (fun c => CSEvent.created c.name c.image)
  let baseNames := sys.containers.map (fun c => c.name)
  if rootExit = 0 then
    let d := runDispositions sys.containers hexit
    { events := createEvs ++ d.1,
      removed := baseNames ++ d.2.1,
      outcome := match d.2.2 with
                 | some e => CSOutcome.exitError e
                 | none => CSOutcome.ok }
  else
    { events := createEvs, removed := baseNames, outcome := CSOutcome.exitError rootExit }

/-! ## Auxiliary definitions for the statements -/

/-- Number of engine start calls in a trace. -/
def countEngineStarts : List Ev → Nat
  | [] => 0
  | Ev.engineStart _ :: rest => countEngineStarts rest + 1
  | _ :: rest => countEngineStarts rest

/-- Predicate picking the image build events out of an orchestrator trace. -/
def isImageBuilt : CSEvent → Bool
  | CSEvent.imageBuilt _ _ _ _ => true
  | _ => false

/-- A container with one pre-create and one post-create callback, used to
observe callback firings. -/
def preCreateSpy : Container :=
  ⟨"img", "c0", true, false, [⟨"pre", "create", 0⟩, ⟨"post", "create", 1⟩]⟩

/-- A callback-free container for concrete lifecycle runs. -/
def quietContainer : Container := ⟨"img", "q0", true, false, []⟩

/-- A callback-free run-once container for concrete start runs. -/
def runOnceContainer : Container := ⟨"img", "r0", true, true, []⟩

/-- A stop oracle describing a running container whose both waits time
out. -/
def escalationOracle : StopOracle :=
  ⟨InspectRes.found 1, ApiRes.ok, WaitRes.timeout, ApiRes.ok, WaitRes.timeout⟩

/-- A concrete root container for orchestrator runs. -/
def sampleRoot : CSContainer := ⟨"root0", "rimg", [], Disposition.discard⟩

/-- A concrete persisted auxiliary container for orchestrator runs. -/
def sampleAux : CSContainer := ⟨"aux0", "aimg", ["/data"], Disposition.persistTo "out"⟩

/-- A concrete container system: one root, one persisted auxiliary. -/
def sampleSystem : CSystem := ⟨sampleRoot, [sampleAux]⟩

/-! ## Helper lemmas -/

theorem countEngineStarts_append (l1 l2 : List Ev) :
    countEngineStarts (l1 ++ l2) = countEngineStarts l1 + countEngineStarts l2 := by
  induction l1 with
  | nil => simp [countEngineStarts]
  | cons e rest ih => cases e <;> simp [countEngineStarts, ih, Nat.add_right_comm]

theorem countEngineStarts_callbackList (l : List Callspec) (p e : String) :
    countEngineStarts (l.map (fun cs => Ev.callbackFired p e cs.callback_id)) = 0 := by
  induction l with
  | nil => rfl
  | cons c rest ih => simpa [countEngineStarts] using ih

theorem countEngineStarts_processCallbacks (c : Container) (p e : String) :
    countEngineStarts (processCallbacks c p e) = 0 := by
  unfold processCallbacks
  exact countEngineStarts_callbackList _ p e

theorem countEngineStarts_wait (c : Container) (o : WaitOracle) (t : Option Nat) (eok : Bool) :
    countEngineStarts (c.wait o t eok).1 = 0 := rfl

theorem countEngineStarts_doStart (c : Container) (o : StartOracle) :
    countEngineStarts (c.doStart o).1 = 1 := by
  unfold Container.doStart
  dsimp only
  by_cases hd : c.detach = true
  · rw [if_pos hd]
    simp [countEngineStarts_append, countEngineStarts_processCallbacks, countEngineStarts]
  · rw [if_neg hd]
    split <;>
      simp [countEngineStarts_append, countEngineStarts_processCallbacks,
            countEngineStarts_wait, countEngineStarts]

/-! ## Claim theorems -/

/-- Claim C3 (amended): the string base:latest then discard resolves to image
base:latest with no persist target; a persist target that contains neither a
colon nor a space (such as outimg) resolves to a persist disposition with
that target; but the target group of the pattern excludes colons, so
base:latest then persist to out:img does not match and raises InvalidFormat;
every non-matching string raises InvalidFormat carrying the option name, the
offending spec text and the owning image. -/
theorem c3_parse_volume_spec_amended (spec opt img : String) :
    parse_volume_spec "base:latest then discard" "volume_from" "img"
        = VolSpecResult.ok ⟨"base:latest", none⟩
    ∧ parse_volume_spec "base:latest then persist to outimg" "volume_from" "img"
        = VolSpecResult.ok ⟨"base:latest", some "outimg"⟩
    ∧ parse_volume_spec "base:latest then persist to out:img" "volume_from" "img"
        = VolSpecResult.invalidFormat "volume_from" "base:latest then persist to out:img" "img"
    ∧ ((∃ v, parse_volume_spec spec opt img = VolSpecResult.ok v)
       ∨ parse_volume_spec spec opt img = VolSpecResult.invalidFormat opt spec img) := by
  refine ⟨by decide, by decide, by decide, ?_⟩
  unfold parse_volume_spec
  dsimp only
  repeat' split
  all_goals first
    | exact Or.inl ⟨_, rfl⟩
    | exact Or.inr rfl

/-- Claim C3 counterexample: contrary to the claim, the string
base:latest then persist to out:img does not resolve to a persist
disposition with target out:img; the target group of volume_spec_pattern
excludes colons, so the parse raises InvalidFormat instead. -/
theorem c3_counterexample :
    parse_volume_spec "base:latest then persist to out:img" "volume_from" "img"
      ≠ VolSpecResult.ok ⟨"base:latest", some "out:img"⟩
    ∧ parse_volume_spec "base:latest then persist to out:img" "volume_from" "img"
      = VolSpecResult.invalidFormat "volume_from" "base:latest then persist to out:img" "img" := by
  exact ⟨by decide, by decide⟩

/-- Claim C3 witness: the universally quantified conjunct of the amended
theorem, instantiated at a concrete non-matching string. -/
theorem c3_parse_volume_spec_amended_witness :
    (∃ v, parse_volume_spec "base:latest discard" "volume_from" "img" = VolSpecResult.ok v)
    ∨ parse_volume_spec "base:latest discard" "volume_from" "img"
        = VolSpecResult.invalidFormat "volume_from" "base:latest discard" "img" :=
  (c3_parse_volume_spec_amended "base:latest discard" "volume_from" "img").2.2.2

/-- Claim C4: in-specs resolve as the claim states, but at-specs crash: the
Python tests membership of the key inpath in the regex groupdict, which
always holds, so the at-spec src/app at /opt/app/run.sh reaches
os.path.join with None as the directory and raises TypeError instead of
resolving to /opt/app/run.sh with directory /opt/app. -/
theorem c4_parse_dir_spec_at_crashes :
    parse_dir_spec "src/app in /opt/app" "entrypoint" "img"
      = DirSpecResult.ok ⟨"src/app", "/opt/app/app", "/opt/app"⟩
    ∧ parse_dir_spec "src/app at /opt/app/run.sh" "entrypoint" "img"
      = DirSpecResult.typeError
    ∧ parse_dir_spec "src/app /opt/app" "entrypoint" "img"
      = DirSpecResult.invalidFormat "entrypoint" "src/app /opt/app" "img" := by
  exact ⟨by decide, by decide, by decide⟩

/-- Claim C9: constructing a Callspec with a phase outside pre/post does not
fail, contrary to the claim: the validity checks in Callspec construction
build ValueError objects but never raise them, so the invalid phase is
stored and construction succeeds. -/
theorem c9_callspec_invalid_phase_succeeds :
    ("mid" ∉ valid_event_parts)
    ∧ ("destroy" ∉ valid_events)
    ∧ Callspec.init "mid" "destroy" 0 = ⟨"mid", "destroy", 0⟩ := by
  exact ⟨by decide, by decide, by decide⟩

/-- Claim C6 counterexample: when the engine reports already-exists (status
409) and create short-circuits, the claim says neither callback fires; but
the pre-create callback runs before the engine call inside the try block, so
it has already fired. -/
theorem c6_counterexample :
    (preCreateSpy.create (ApiRes.apiError 409) true).2 = CallOutcome.returned
    ∧ Ev.callbackFired "pre" "create" 0 ∈ (preCreateSpy.create (ApiRes.apiError 409) true).1 := by
  exact ⟨by decide, by decide⟩

/-- Claim C6 (amended): create is idempotent — an already-exists report
(status 409) is not an error and create returns normally, while any other
engine failure propagates; on the already-exists short-circuit the
post-create callback is skipped, but the pre-create callback still fires,
because it runs before the engine call. -/
theorem c6_create_idempotent_amended (c : Container) (s : Nat) :
    (c.create (ApiRes.apiError 409) true).2 = CallOutcome.returned
    ∧ (s ≠ 409 → (c.create (ApiRes.apiError s) true).2 = CallOutcome.raisedApi s)
    ∧ (c.create ApiRes.ok true).2 = CallOutcome.returned
    ∧ (c.create (ApiRes.apiError 409) true).1
        = processCallbacks c "pre" "create" ++ [Ev.engineCreate c.name c.image] := by
  refine ⟨rfl, ?_, rfl, rfl⟩
  intro hs
  have hb : (s == 409) = false := beq_eq_false_iff_ne.mpr hs
  simp [Container.create, hb]

/-- Claim C6 witness: the amended theorem at a concrete container and a
non-409 engine failure. -/
theorem c6_create_idempotent_amended_witness :
    (preCreateSpy.create (ApiRes.apiError 500) true).2 = CallOutcome.raisedApi 500 :=
  (c6_create_idempotent_amended preCreateSpy 500).2.1 (by decide)

/-- Claim C7: a run_once container first inspects remote state and issues an
engine start call only when the reported start timestamp is the zero
sentinel; with a set timestamp zero engine start calls are issued; a
container without run_once always starts. -/
theorem c7_start_run_once (c : Container) (o : StartOracle) :
    (countEngineStarts (c.start o).1
        = if c.run_once = true ∧ o.startedAt ≠ zeroStartSentinel then 0 else 1)
    ∧ (c.run_once = true → (c.start o).1.take 1 = [Ev.engineInspect c.name]) := by
  unfold Container.start
  by_cases hro : c.run_once = true
  · by_cases hs : (o.startedAt == zeroStartSentinel) = true
    · have hsent : o.startedAt = zeroStartSentinel := by simpa using hs
      rw [if_pos hro, if_pos hs]
      constructor
      · rw [if_neg (by simp [hsent])]
        simp [countEngineStarts, countEngineStarts_doStart]
      · intro _
        rfl
    · have hsent : o.startedAt ≠ zeroStartSentinel := by simpa using hs
      rw [if_pos hro, if_neg hs]
      constructor
      · rw [if_pos ⟨hro, hsent⟩]
        rfl
      · intro _
        rfl
  · rw [if_neg hro]
    constructor
    · rw [if_neg (by simp [hro])]
      exact countEngineStarts_doStart c o
    · intro hcontra
      exact absurd hcontra hro

/-- Claim C7 witness: a run_once container whose engine-reported start
timestamp is set issues zero engine start calls, and its trace begins with
the inspect call. -/
theorem c7_start_run_once_witness :
    countEngineStarts
        (runOnceContainer.start ⟨"2014-05-01T00:00:00Z", ⟨WaitRes.res (some 0), "", ""⟩⟩).1 = 0
    ∧ (runOnceContainer.start ⟨"2014-05-01T00:00:00Z", ⟨WaitRes.res (some 0), "", ""⟩⟩).1.take 1
        = [Ev.engineInspect "r0"] := by
  have h := c7_start_run_once runOnceContainer ⟨"2014-05-01T00:00:00Z", ⟨WaitRes.res (some 0), "", ""⟩⟩
  constructor
  · have h1 := h.1
    rw [if_pos ⟨rfl, by decide⟩] at h1
    exact h1
  · exact h.2 rfl

/-- Claim C8: wait returns the exit code when the container exits zero or
when the caller tolerates any exit code; otherwise every non-zero exit
raises ContainerExitError carrying the code, the captured logs and the
inspect snapshot; an engine timeout raises the distinct timeout condition,
never an exit-code failure. -/
theorem c8_wait_exit_semantics (c : Container) (o : WaitOracle) (t : Option Nat) (eok : Bool)
    (s : Int) :
    (o.result = WaitRes.res (some 0) → (c.wait o t eok).2 = WaitOutcome.returned 0)
    ∧ (o.result = WaitRes.res (some s) → eok = true → (c.wait o t eok).2 = WaitOutcome.returned s)
    ∧ (o.result = WaitRes.res (some s) → s ≠ 0 → eok = false →
        (c.wait o t eok).2 = WaitOutcome.raisedExit s o.logs o.insp)
    ∧ (o.result = WaitRes.timeout →
        (c.wait o t eok).2 = WaitOutcome.raisedTimeout
        ∧ ∀ code l i, (c.wait o t eok).2 ≠ WaitOutcome.raisedExit code l i) := by
  refine ⟨?_, ?_, ?_, ?_⟩
  · intro h
    simp [Container.wait, h]
  · intro h he
    subst he
    simp [Container.wait, h]
  · intro h hs he
    subst he
    have hb : (s == 0) = false := beq_eq_false_iff_ne.mpr hs
    simp [Container.wait, h, hb]
  · intro h
    constructor
    · simp [Container.wait, h]
    · intro code l i
      simp [Container.wait, h]

/-- Claim C8 witness: a non-zero exit without tolerance raises
ContainerExitError with the code, logs and inspect snapshot; an engine
timeout raises the timeout condition. -/
theorem c8_wait_exit_semantics_witness :
    (quietContainer.wait ⟨WaitRes.res (some 3), "logs", "insp"⟩ none false).2
        = WaitOutcome.raisedExit 3 "logs" "insp"
    ∧ (quietContainer.wait ⟨WaitRes.timeout, "logs", "insp"⟩ (some 20) false).2
        = WaitOutcome.raisedTimeout :=
  ⟨(c8_wait_exit_semantics quietContainer ⟨WaitRes.res (some 3), "logs", "insp"⟩ none false 3).2.2.1
      rfl (by decide) rfl,
   ((c8_wait_exit_semantics quietContainer ⟨WaitRes.timeout, "logs", "insp"⟩ (some 20) false 0).2.2.2
      rfl).1⟩

/-- Claim C5: stop never raises on the timeout-escalation path.  Inspect
reporting NotFound is tolerated; a container that is not running (pid 0) is
a no-op; a NotFound from either kill is tolerated; and when the container is
running, the graceful signal 15 is sent first, a wait with timeout 20 is
attempted, on timeout the forceful signal 9 is sent and a second wait with
the same timeout attempted, and a second timeout still returns normally. -/
theorem c5_stop_escalation (c : Container) (o : StopOracle) (pid : Nat) :
    (o.inspectRes = InspectRes.apiError 404 →
        c.stop o true = ([Ev.engineInspect c.name], CallOutcome.returned))
    ∧ (o.inspectRes = InspectRes.found 0 →
        c.stop o true = ([Ev.engineInspect c.name], CallOutcome.returned))
    ∧ (o.inspectRes = InspectRes.found pid → pid ≠ 0 → o.kill15 = ApiRes.apiError 404 →
        (c.stop o true).2 = CallOutcome.returned)
    ∧ (o.inspectRes = InspectRes.found pid → pid ≠ 0 → o.kill15 = ApiRes.ok →
        o.wait1 = WaitRes.timeout → o.kill9 = ApiRes.apiError 404 →
        (c.stop o true).2 = CallOutcome.returned)
    ∧ (o.inspectRes = InspectRes.found pid → pid ≠ 0 → o.kill15 = ApiRes.ok →
        o.wait1 = WaitRes.timeout → o.kill9 = ApiRes.ok → o.wait2 = WaitRes.timeout →
        c.stop o true
          = (Ev.engineInspect c.name :: processCallbacks c "pre" "stop"
              ++ [Ev.engineKill c.name 15, Ev.engineWait c.name (some 20),
                  Ev.engineKill c.name 9, Ev.engineWait c.name (some 20)],
             CallOutcome.returned)) := by
  refine ⟨?_, ?_, ?_, ?_, ?_⟩
  · intro h
    simp [Container.stop, h]
  · intro h
    simp [Container.stop, h]
  · intro h hp h15
    have hb : (pid == 0) = false := beq_eq_false_iff_ne.mpr hp
    simp [Container.stop, h, hb, h15]
  · intro h hp h15 hw1 h9
    have hb : (pid == 0) = false := beq_eq_false_iff_ne.mpr hp
    simp [Container.stop, h, hb, h15, hw1, h9]
  · intro h hp h15 hw1 h9 hw2
    have hb : (pid == 0) = false := beq_eq_false_iff_ne.mpr hp
    simp [Container.stop, h, hb, h15, hw1, h9, hw2]

/-- Claim C5 witness: a running container whose both waits time out — stop
sends signal 15, waits 20, sends signal 9, waits 20 and returns normally. -/
theorem c5_stop_escalation_witness :
    quietContainer.stop escalationOracle true
      = ([Ev.engineInspect "q0", Ev.engineKill "q0" 15, Ev.engineWait "q0" (some 20),
          Ev.engineKill "q0" 9, Ev.engineWait "q0" (some 20)], CallOutcome.returned) := by
  have h := (c5_stop_escalation quietContainer escalationOracle 1).2.2.2.2
      rfl (by decide) rfl rfl rfl rfl
  simpa [quietContainer, escalationOracle, processCallbacks] using h

theorem setIsDisjoint_iff (a b : List String) :
    setIsDisjoint a b = true ↔ ∀ x ∈ a, x ∉ b := by
  simp [setIsDisjoint, List.all_eq_true]

/-- Claim C10: build_images routes an image to the container-system path
exactly when its configuration has at least one of the keys volumes_from,
links or commit, and to the standard layered path exactly when it has none
of them. -/
theorem c10_build_images_routing (cfgKeys : List String) :
    (buildRoute cfgKeys = BuildPath.containerSystem
       ↔ ∃ k ∈ container_system_option_names, k ∈ cfgKeys)
    ∧ (buildRoute cfgKeys = BuildPath.standard
       ↔ ∀ k ∈ container_system_option_names, k ∉ cfgKeys) := by
  cases hb : setIsDisjoint container_system_option_names cfgKeys with
  | true =>
      have hall := (setIsDisjoint_iff _ _).mp hb
      have hroute : buildRoute cfgKeys = BuildPath.standard := by simp [buildRoute, hb]
      refine ⟨⟨fun hr => ?_, fun hex => ?_⟩, ⟨fun _ => hall, fun _ => hroute⟩⟩
      · rw [hroute] at hr
        exact BuildPath.noConfusion hr
      · rcases hex with ⟨k, hk, hkc⟩
        exact absurd hkc (hall k hk)
  | false =>
      have hex : ∃ k ∈ container_system_option_names, k ∈ cfgKeys := by
        by_contra hne
        push_neg at hne
        have ht := (setIsDisjoint_iff _ _).mpr hne
        rw [hb] at ht
        cases ht
      have hroute : buildRoute cfgKeys = BuildPath.containerSystem := by simp [buildRoute, hb]
      refine ⟨⟨fun _ => hex, fun _ => hroute⟩, ⟨fun hr => ?_, fun hall => ?_⟩⟩
      · rw [hroute] at hr
        exact BuildPath.noConfusion hr
      · rcases hex with ⟨k, hk, hkc⟩
        exact absurd hkc (hall k hk)

/-- Claim C1: when the root container exits non-zero, the build fails with
ContainerExitError carrying the root exit code, no commit and no
persist/extraction call is made for any container (no extraction helper is
even created), and every container the run created is still removed before
the error reaches the caller. -/
theorem c1_root_nonzero (sys : CSystem) (rootExit : Int) (hexit : String → Int)
    (h : rootExit ≠ 0) :
    (buildContainerSystemRun sys rootExit hexit).outcome = CSOutcome.exitError rootExit
    ∧ (∀ n t, CSEvent.committed n t ∉ (buildContainerSystemRun sys rootExit hexit).events)
    ∧ (∀ n i vf cmd,
        CSEvent.helperCreated n i vf cmd ∉ (buildContainerSystemRun sys rootExit hexit).events)
    ∧ (∀ b t src dst,
        CSEvent.imageBuilt b t src dst ∉ (buildContainerSystemRun sys rootExit hexit).events)
    ∧ (buildContainerSystemRun sys rootExit hexit).removed
        = sys.containers.map (fun c => c.name)
    ∧ (∀ c ∈ sys.containers, c.name ∈ (buildContainerSystemRun sys rootExit hexit).removed) := by
  unfold buildContainerSystemRun
  rw [if_neg h]
  refine ⟨rfl, ?_, ?_, ?_, rfl, ?_⟩
  · intro n t hmem
    simp [List.mem_map] at hmem
  · intro n i vf cmd hmem
    simp [List.mem_map] at hmem
  · intro b t src dst hmem
    simp [List.mem_map] at hmem
  · intro c hc
    simp only [List.mem_map]
    exact ⟨c, hc, rfl⟩

/-- Claim C1 witness: a concrete two-container system whose root exits with
code 2 — the run fails with that code and both containers are removed. -/
theorem c1_root_nonzero_witness :
    (buildContainerSystemRun sampleSystem 2 (fun _ => 0)).outcome = CSOutcome.exitError 2
    ∧ (buildContainerSystemRun sampleSystem 2 (fun _ => 0)).removed = ["root0", "aux0"] := by
  have h := c1_root_nonzero sampleSystem 2 (fun _ => 0) (by decide)
  refine ⟨h.1, ?_⟩
  have h5 := h.2.2.2.2.1
  simpa [sampleSystem, sampleRoot, sampleAux, CSystem.containers] using h5

/-- Claim C2: for a system whose single auxiliary carries a persist
disposition and whose root exits zero: the extraction helper is created from
the minimal utility image with a read-only volumes-from reference to the
auxiliary and a tar command over the auxiliary's enumerated volume paths; a
non-zero helper exit raises ContainerExitError with the helper's code; on
zero exit exactly one image build occurs, based on the auxiliary's original
image, adding only the archive at the filesystem root, tagged with the
target; and root, auxiliary and helper are all removed. -/
theorem c2_persist_extraction (root aux : CSContainer) (target : String) (hexit : String → Int)
    (hroot : root.disposition = Disposition.discard)
    (haux : aux.disposition = Disposition.persistTo target) :
    (CSEvent.helperCreated (helperNameOf aux.name) extract_helper_image
        (extract_volumes_from aux.name)
        (extract_command (helperTarPath aux.name) (extract_volume_paths aux.volumes))
      ∈ (buildContainerSystemRun ⟨root, [aux]⟩ 0 hexit).events)
    ∧ (hexit aux.name ≠ 0 →
        (buildContainerSystemRun ⟨root, [aux]⟩ 0 hexit).outcome
          = CSOutcome.exitError (hexit aux.name))
    ∧ (hexit aux.name = 0 →
        (buildContainerSystemRun ⟨root, [aux]⟩ 0 hexit).outcome = CSOutcome.ok
        ∧ ((buildContainerSystemRun ⟨root, [aux]⟩ 0 hexit).events.filter isImageBuilt)
            = [CSEvent.imageBuilt aux.image target (helperTarPath aux.name) "/"])
    ∧ (buildContainerSystemRun ⟨root, [aux]⟩ 0 hexit).removed
        = [root.name, aux.name, helperNameOf aux.name] := by
  by_cases hz : hexit aux.name = 0
  · refine ⟨?_, fun hne => absurd hz hne, fun _ => ⟨?_, ?_⟩, ?_⟩ <;>
      simp [buildContainerSystemRun, CSystem.containers, runDispositions, runPersist,
            hroot, haux, hz, isImageBuilt, List.filter]
  · have hbz : ¬ hexit aux.name = 0 := hz
    refine ⟨?_, fun _ => ?_, fun heq => absurd heq hbz, ?_⟩ <;>
      simp [buildContainerSystemRun, CSystem.containers, runDispositions, runPersist,
            hroot, haux, hz, isImageBuilt, List.filter]

/-- Claim C2 witness: the concrete sample system — root exits zero, the
helper exits zero, the helper is created with a read-only volumes-from
reference and the tar command, and root, auxiliary and helper are all
removed. -/
theorem c2_persist_extraction_witness :
    (buildContainerSystemRun sampleSystem 0 (fun _ => 0)).outcome = CSOutcome.ok
    ∧ (buildContainerSystemRun sampleSystem 0 (fun _ => 0)).removed
        = ["root0", "aux0", "aux0.extract"]
    ∧ CSEvent.helperCreated "aux0.extract" "busybox:latest" ["aux0:ro"]
        ["tar", "-cf", "/aux0.extract/extract.tar", "data"]
      ∈ (buildContainerSystemRun sampleSystem 0 (fun _ => 0)).events := by
  have h := c2_persist_extraction sampleRoot sampleAux "out" (fun _ => 0) rfl rfl
  refine ⟨(h.2.2.1 rfl).1, ?_, ?_⟩
  · have h4 := h.2.2.2
    simpa [sampleRoot, sampleAux, helperNameOf] using h4
  · have h1 := h.1
    simpa [sampleSystem, sampleRoot, sampleAux, helperNameOf, helperTarPath,
           extract_helper_image, extract_volumes_from, extract_command,
           extract_volume_paths, lstripSlash] using h1

end Nagoya
